import Mathlib

/-!
Verification of the request-authorization and rate-limiting pipeline of the
stock-data-service repository.

The definitions below are a shallow embedding of the Python source:

* `app/models/auth.py`        — `UserRole`, `APIKeyScope`, `User`, `APIKey`, `RateLimitInfo`
* `app/services/auth_service.py`   — `validate_password_strength`, `verify_api_key`
* `app/services/api_key_service.py`— `APIKeyService.has_scope`, `authenticate_api_key`
* `app/services/user_service.py`   — `create_user` / `change_password` password gate
* `app/services/rate_limit_service.py` — `_get_cache_key`, `check_rate_limit`,
  `is_rate_limited`
* `app/middleware/auth_middleware.py` — `AuthContext.has_role`, `AuthContext.has_scope`,
  `get_auth_context`, `RateLimitMiddleware.check_rate_limit`

Conventions of the embedding:

* Timestamps (`datetime.utcnow()` values and stored ISO strings) are modelled as
  integers (seconds).  The source stores ISO-8601 strings and takes `min` of them
  lexicographically; for the fixed ISO format produced by `isoformat()` the
  lexicographic order agrees with the chronological order, so `Int` with its
  usual order is a faithful model.  Each middleware request is modelled with one
  logical clock reading `now` (the source's two adjacent `utcnow()` calls).
* The in-memory cache (`cache_service`) is modelled as a total map from the
  cache-key string to the stored timestamp list.  `_generate_key` is injective
  on distinct key strings (modulo hash collisions of the digest, which we model
  as absent), and the TTL of `window + 300` seconds never expires an entry that
  is touched within one window, so get/set degenerate to map lookup/update.
* Fallible Python calls are modelled with `PyResult`: `ok v` for a normal
  return, `exn` for a raised exception.  A Python value used in a boolean
  position (`if x:`) is modelled by an explicit truthiness function.
-/

namespace StockAuth

/-- `UserRole` from `app/models/auth.py` (admin / user / readonly). -/
inductive UserRole where
  | admin
  | user
  | readonly
deriving DecidableEq, Repr

/-- `APIKeyScope` from `app/models/auth.py` (read / write / admin). -/
inductive APIKeyScope where
  | read
  | write
  | admin
deriving DecidableEq, Repr

/-- `User` from `app/models/auth.py`, restricted to the fields the
authorization / rate-limit pipeline reads. -/
structure User where
  username : String
  role : UserRole
  is_active : Bool
  rate_limit_requests : Nat
  rate_limit_window : Nat
deriving DecidableEq, Repr

/-- `APIKey` from `app/models/auth.py`, restricted to the fields the
authorization / rate-limit pipeline reads.  `expires_at` is an optional
timestamp (seconds). -/
structure APIKey where
  key_id : String
  key_hash : String
  name : String
  scopes : List APIKeyScope
  is_active : Bool
  expires_at : Option Int
  rate_limit_requests : Nat
  rate_limit_window : Nat
deriving DecidableEq, Repr

/-- `TokenData` from `app/models/auth.py`, as produced by a successful
`verify_token` (whose guard makes `username` non-None). -/
structure TokenData where
  username : String
  user_id : Option String
  role : Option String
deriving DecidableEq, Repr

/-- `RateLimitInfo` from `app/models/auth.py`.  `requests_remaining` is a
Python `int` and is kept as `Int`. -/
structure RateLimitInfo where
  requests_made : Nat
  requests_remaining : Int
  reset_time : Int
  limit : Nat
  window : Nat
deriving DecidableEq, Repr

/-- Result of a fallible Python call: a normal return or a raised exception. -/
inductive PyResult (α : Type) where
  | ok (v : α)
  | exn
deriving DecidableEq, Repr

/-! ## Authorization resolver -/

/-- `APIKeyService.has_scope` (`app/services/api_key_service.py`, lines
220–225), with the value it computes when awaited: admin scope satisfies any
required scope, otherwise the scope list must contain the required scope.
In the source this function is declared `async def`. -/
def APIKeyService.hasScopeAwaited (api_key : APIKey) (required_scope : APIKeyScope) : Bool :=
  if api_key.scopes.contains APIKeyScope.admin then true
  else api_key.scopes.contains required_scope

/-- `AuthContext` from `app/middleware/auth_middleware.py`: holds an optional
user, an optional API key and the auth-type tag ("jwt" / "api_key" / "none"). -/
structure AuthContext where
  user : Option User
  api_key : Option APIKey
  auth_type : String
deriving DecidableEq, Repr

/-- A Python value observed in a boolean position.  `AuthContext.has_scope`
returns either an actual `bool` or — in the API-key branch — the coroutine
object produced by calling the `async def APIKeyService.has_scope` without
`await`; a coroutine object is truthy. -/
inductive PyBoolValue where
  | bool (b : Bool)
  | coroutine
deriving DecidableEq, Repr

/-- Python truthiness of a `PyBoolValue`: a coroutine object is always truthy. -/
def PyBoolValue.truthy : PyBoolValue → Bool
  | .bool b => b
  | .coroutine => true

/-- `AuthContext.has_scope` (`app/middleware/auth_middleware.py`, lines 61–75).
If an API key is present it returns `api_key_service.has_scope(self.api_key,
required_scope)` — but that callee is `async def` and the call is not awaited,
so the returned value is a coroutine object, not a `bool`.  Otherwise the
user-role mapping is evaluated to an actual `bool`. -/
def AuthContext.has_scope (ctx : AuthContext) (required_scope : APIKeyScope) : PyBoolValue :=
  match ctx.api_key with
  | some _ => PyBoolValue.coroutine
  | none =>
    match ctx.user with
    | some u =>
      PyBoolValue.bool
        (if u.role = UserRole.admin then true
         else if required_scope = APIKeyScope.read
              && (u.role = UserRole.user || u.role = UserRole.readonly) then true
         else if required_scope = APIKeyScope.write && u.role = UserRole.user then true
         else false)
    | none => PyBoolValue.bool false

/-- The test `require_scope` performs (`app/middleware/auth_middleware.py`,
line 148): `if not auth_context.has_scope(required_scope)` — the request passes
the scope check iff the returned value is truthy. -/
def scopeCheckPasses (ctx : AuthContext) (required_scope : APIKeyScope) : Bool :=
  (ctx.has_scope required_scope).truthy

/-- `AuthContext.has_role` (`app/middleware/auth_middleware.py`, lines 50–59):
no user → `False`; admin role satisfies every role; otherwise exact match. -/
def AuthContext.has_role (ctx : AuthContext) (required_role : UserRole) : Bool :=
  match ctx.user with
  | none => false
  | some u =>
    if u.role = UserRole.admin then true
    else u.role = required_role

/-! ## Password strength gate -/

/-- ASCII semantics of Python `str.isupper()` on a single character. -/
def pyIsUpper (c : Char) : Bool := 65 ≤ c.toNat && c.toNat ≤ 90

/-- ASCII semantics of Python `str.islower()` on a single character. -/
def pyIsLower (c : Char) : Bool := 97 ≤ c.toNat && c.toNat ≤ 122

/-- ASCII semantics of Python `str.isdigit()` on a single character. -/
def pyIsDigit (c : Char) : Bool := 48 ≤ c.toNat && c.toNat ≤ 57

/-- The special-character alphabet from `validate_password_strength`
(`app/services/auth_service.py`, line 116). -/
def specialChars : List Char := "!@#$%^&*()_+-=[]\x7b\x7d|;:,.<>?".toList

/-- `AuthService.validate_password_strength` (`app/services/auth_service.py`,
lines 108–121): length below 8 fails; otherwise at least 3 of the 4 character
classes must be present. -/
def validate_password_strength (password : String) : Bool :=
  if password.length < 8 then false
  else
    let has_upper := password.toList.any pyIsUpper
    let has_lower := password.toList.any pyIsLower
    let has_digit := password.toList.any pyIsDigit
    let has_special := password.toList.any (fun c => specialChars.contains c)
    let conditions_met :=
      (if has_upper then 1 else 0) + (if has_lower then 1 else 0)
        + (if has_digit then 1 else 0) + (if has_special then 1 else 0)
    3 ≤ conditions_met

/-- The number of satisfied character classes of a password — the spec's
"at least 3 of (has-uppercase, has-lowercase, has-digit, has-special-char)"
side of the strength gate. -/
def passwordClassCount (password : String) : Nat :=
  (if password.toList.any pyIsUpper then 1 else 0)
    + (if password.toList.any pyIsLower then 1 else 0)
    + (if password.toList.any pyIsDigit then 1 else 0)
    + (if password.toList.any (fun c => specialChars.contains c) then 1 else 0)

/-- The `detail` string of the weak-password `HTTPException(400)` raised by
`UserService.create_user` and `UserService.change_password`. -/
def weakPasswordDetail : String :=
  "Password must be at least 8 characters and contain uppercase, lowercase, number, and special character"

/-- Outcome of `UserService.create_user` as seen by the caller. -/
inductive CreateUserResult where
  | badRequest (detail : String)
  | created
deriving DecidableEq, Repr

/-- `UserService.create_user` (`app/services/user_service.py`, lines 17–64),
control flow up to the persistence calls: duplicate-username / duplicate-email
checks, then the password-strength gate, then creation succeeds.  The two
booleans model the outcome of the duplicate lookup. -/
def create_user (usernameExists emailExists : Bool) (password : String) : CreateUserResult :=
  if usernameExists then CreateUserResult.badRequest "Username already exists"
  else if emailExists then CreateUserResult.badRequest "Email already exists"
  else if !validate_password_strength password then CreateUserResult.badRequest weakPasswordDetail
  else CreateUserResult.created

/-- `UserService.change_password` (`app/services/user_service.py`, lines
151–190), control flow up to the persistence call: the error pairs carry the
HTTP status and detail of the raised `HTTPException`. -/
def change_password (userFound currentPasswordOk : Bool) (new_password : String) :
    Except (Nat × String) Bool :=
  if !userFound then Except.error (404, "User not found")
  else if !currentPasswordOk then Except.error (400, "Current password is incorrect")
  else if !validate_password_strength new_password then Except.error (400, weakPasswordDetail)
  else Except.ok true

/-! ## Quota tracker (`app/services/rate_limit_service.py`) -/

/-- The quota store: the in-memory cache restricted to the `rate_limit_data`
entries, as a total map from the cache-key string to the stored timestamp
sequence (`current_data["requests"]`). -/
def QuotaStore : Type := String → Option (List Int)

/-- The everywhere-empty quota store (no entry has been written yet). -/
def emptyStore : QuotaStore := fun _ => none

/-- Point update of the quota store, the effect of
`cache_service.set("rate_limit_data", updated_data, ...)` at one cache key. -/
def storeSet (store : QuotaStore) (k : String) (v : List Int) : QuotaStore :=
  fun k2 => if k2 = k then some v else store k2

/-- `RateLimitService._get_cache_key` (`app/services/rate_limit_service.py`,
lines 18–22): `"rate_limit:identifier:endpoint"`, or without the endpoint part
when no endpoint is given. -/
def getCacheKey (identifier : String) (endpoint : Option String) : String :=
  match endpoint with
  | some e => "rate_limit:" ++ identifier ++ ":" ++ e
  | none => "rate_limit:" ++ identifier

/-- Python's `min` over a list with a fallback default for the empty list:
`min(recent_requests) if recent_requests else now`. -/
def listMin (l : List Int) (dflt : Int) : Int :=
  match l with
  | [] => dflt
  | t :: ts => ts.foldl min t

/-- `RateLimitService.check_rate_limit` (`app/services/rate_limit_service.py`,
lines 24–92).  Loads the stored timestamp sequence at the cache key (absent →
empty), keeps the timestamps strictly newer than `now - window`, rejects
without writing when their number has reached `limit` (reset time =
earliest retained + window, defaulting to `now` when nothing is retained),
otherwise appends `now`, persists and admits (reset time = `now + window`,
remaining = `limit -` new length).  Returns the `RateLimitInfo` and the store
after the call. -/
def check_rate_limit (store : QuotaStore) (now : Int) (identifier : String)
    (limit : Nat) (window : Nat) (endpoint : Option String) :
    RateLimitInfo × QuotaStore :=
  let cache_key := getCacheKey identifier endpoint
  let window_start : Int := now - (window : Int)
  let requests := (store cache_key).getD []
  let recent_requests := requests.filter (fun t => window_start < t)
  let current_count := recent_requests.length
  if limit ≤ current_count then
    let oldest_request := listMin recent_requests now
    let reset_time := oldest_request + (window : Int)
    ({ requests_made := current_count, requests_remaining := 0,
       reset_time := reset_time, limit := limit, window := window }, store)
  else
    let updated := recent_requests ++ [now]
    let store2 := storeSet store cache_key updated
    ({ requests_made := updated.length,
       requests_remaining := (limit : Int) - (updated.length : Int),
       reset_time := now + (window : Int), limit := limit, window := window }, store2)

/-- `RateLimitService.is_rate_limited` (`app/services/rate_limit_service.py`,
lines 173–175): `requests_remaining <= 0`. -/
def is_rate_limited (info : RateLimitInfo) : Bool :=
  info.requests_remaining ≤ 0

/-- The branch condition under which `check_rate_limit` records the request
(the negation of its `current_count >= limit` rejection guard), computed from
the same state: the service-level "this request was admitted and appended". -/
def serviceAdmits (store : QuotaStore) (now : Int) (identifier : String)
    (limit : Nat) (window : Nat) (endpoint : Option String) : Bool :=
  let requests := (store (getCacheKey identifier endpoint)).getD []
  let recent_requests := requests.filter (fun t => now - (window : Int) < t)
  decide (recent_requests.length < limit)

/-- The headers attached to the 429 `HTTPException` raised by
`RateLimitMiddleware.check_rate_limit`: `X-RateLimit-Limit`,
`X-RateLimit-Remaining`, `X-RateLimit-Reset` and `Retry-After`. -/
structure RateLimitHeaders where
  limit : Nat
  remaining : Int
  reset : Int
  retryAfter : Int
deriving DecidableEq, Repr

/-- Outcome of one pass through `RateLimitMiddleware.check_rate_limit`:
`rejected = some h` models the 429 `HTTPException` with headers `h`,
`rejected = none` models the request being handed on. -/
structure MiddlewareResult where
  rejected : Option RateLimitHeaders
  info : RateLimitInfo
  store : QuotaStore

/-- `RateLimitMiddleware.check_rate_limit` (`app/middleware/auth_middleware.py`,
lines 177–230) for a resolved identifier/limit/window: runs the service check,
then raises 429 with the rate-limit headers when `is_rate_limited` holds, where
`Retry-After` is `int((reset_time - utcnow()).total_seconds())` — with integer
timestamps, `reset_time - now`. -/
def middleware_check_rate_limit (store : QuotaStore) (now : Int) (identifier : String)
    (limit : Nat) (window : Nat) (endpoint : Option String) : MiddlewareResult :=
  let r := check_rate_limit store now identifier limit window endpoint
  let info := r.1
  if is_rate_limited info then
    let hdrs : RateLimitHeaders :=
      { limit := info.limit, remaining := info.requests_remaining,
        reset := info.reset_time, retryAfter := info.reset_time - now }
    { rejected := some hdrs, info := info, store := r.2 }
  else
    { rejected := none, info := info, store := r.2 }

/-- The endpoint string the middleware keys quota state by
(`app/middleware/auth_middleware.py`, line 184): `f"(method) (url.path)"`
with a space between the two parts. -/
def endpointOfRequest (method path : String) : String :=
  method ++ " " ++ path

/-- Fold `check_rate_limit` over a list of request times for one
identifier/endpoint, returning the final store and the number of requests the
service admitted (i.e. appended to the stored sequence). -/
def processTimes (limit window : Nat) (identifier : String) (endpoint : Option String) :
    QuotaStore → List Int → QuotaStore × Nat
  | store, [] => (store, 0)
  | store, t :: ts =>
    let adm := serviceAdmits store t identifier limit window endpoint
    let store2 := (check_rate_limit store t identifier limit window endpoint).2
    let rest := processTimes limit window identifier endpoint store2 ts
    (rest.1, (if adm then 1 else 0) + rest.2)

/-- Fold `middleware_check_rate_limit` over a list of request times for one
identifier/endpoint, returning for each request whether the middleware raised
429 (`true` = rejected). -/
def middlewareRejections (limit window : Nat) (identifier : String)
    (endpoint : Option String) : QuotaStore → List Int → List Bool
  | _, [] => []
  | store, t :: ts =>
    let r := middleware_check_rate_limit store t identifier limit window endpoint
    r.rejected.isSome :: middlewareRejections limit window identifier endpoint r.store ts

/-! ## Credential verifier (`app/services/auth_service.py`,
`app/services/api_key_service.py`) -/

/-- `AuthService.verify_api_key` (`app/services/auth_service.py`, lines
104–106): hash the presented raw key and compare with the stored digest.  The
hash function (`hashlib.sha256(...).hexdigest()`) is passed in as a parameter
of the embedding. -/
def verify_api_key (hash : String → String) (api_key : String) (hashed_key : String) : Bool :=
  hash api_key = hashed_key

/-- `APIKeyService.authenticate_api_key` (`app/services/api_key_service.py`,
lines 71–94).  `lookup` is the result of `get_api_key_by_key_id`;
`update_last_used` is the behaviour of the awaited
`self.update_last_used(key_id)` call, which the source neither wraps in a
try/except nor detaches — its exception propagates out of
`authenticate_api_key`. -/
def authenticate_api_key (hash : String → String) (now : Int)
    (lookup : Option APIKey) (update_last_used : PyResult Unit)
    (raw_api_key : String) : PyResult (Option APIKey) :=
  match lookup with
  | none => PyResult.ok none
  | some api_key =>
    if !api_key.is_active then PyResult.ok none
    else if (match api_key.expires_at with
             | some e => decide (e < now)
             | none => false) then PyResult.ok none
    else if !verify_api_key hash raw_api_key api_key.key_hash then PyResult.ok none
    else
      match update_last_used with
      | PyResult.exn => PyResult.exn
      | PyResult.ok _ => PyResult.ok (some api_key)

/-! ## Auth context builder (`app/middleware/auth_middleware.py`,
`get_auth_context`) -/

/-- The HTTP surface of one request as `get_auth_context` reads it: the
`X-API-Key` header, the `api_key` query parameter and the bearer credentials
extracted by `HTTPBearer(auto_error=False)`. -/
structure Request where
  header_x_api_key : Option String
  query_api_key : Option String
  bearer_credentials : Option String
deriving DecidableEq, Repr

/-- Python `a or b` on two optional strings: `a` when it is truthy (present
and non-empty), otherwise `b`. -/
def pyOrStr : Option String → Option String → Option String
  | some s, b => if s.toList.isEmpty then b else some s
  | none, b => b

/-- Python `c in s` for a character and a string. -/
def pyContains (s : String) (c : Char) : Bool :=
  s.toList.contains c

/-- The characters before the first occurrence of `c`. -/
def takeUntil (c : Char) : List Char → List Char
  | [] => []
  | a :: as => if a = c then [] else a :: takeUntil c as

/-- The characters after the first occurrence of `c`. -/
def dropAfter (c : Char) : List Char → List Char
  | [] => []
  | a :: as => if a = c then as else dropAfter c as

/-- Python `s.split(":", 1)` for a string containing `:`: the part before the
first `:` and the remainder after it. -/
def pySplitOnce (s : String) : String × String :=
  (⟨takeUntil ':' s.toList⟩, ⟨dropAfter ':' s.toList⟩)

/-- The anonymous `AuthContext(auth_type="none")`. -/
def anonCtx : AuthContext :=
  { user := none, api_key := none, auth_type := "none" }

/-- The bearer-token half of `get_auth_context`
(`app/middleware/auth_middleware.py`, lines 101–115): verify the token, look
up the live user by the token's username, require `is_active`; any
`HTTPException` or other exception is caught and falls through to the
anonymous context. -/
def bearerAuth (credentials : Option String)
    (verify_token : String → PyResult TokenData)
    (get_user_by_username : String → PyResult (Option User)) : AuthContext :=
  match credentials with
  | none => anonCtx
  | some tok =>
    match verify_token tok with
    | PyResult.exn => anonCtx
    | PyResult.ok token_data =>
      match get_user_by_username token_data.username with
      | PyResult.exn => anonCtx
      | PyResult.ok none => anonCtx
      | PyResult.ok (some u) =>
        if u.is_active then { user := some u, api_key := none, auth_type := "jwt" }
        else anonCtx

/-- `get_auth_context` (`app/middleware/auth_middleware.py`, lines 78–115).
API-key authentication is tried first: the credential is
`header or query-parameter`; when truthy and containing a `:` it is split into
`key_id:raw_key` and `authenticate_api_key` is called (modelled by the
`api_key_auth` behaviour parameter, keyed by the split parts); a returned key
yields the API-key context; `None`, a missing `:` or a raised exception (caught
and logged) falls through to bearer-token authentication; if that also fails
the anonymous context is returned. -/
def get_auth_context (req : Request)
    (api_key_auth : String → String → PyResult (Option APIKey))
    (verify_token : String → PyResult TokenData)
    (get_user_by_username : String → PyResult (Option User)) : AuthContext :=
  let cred := pyOrStr req.header_x_api_key req.query_api_key
  let apiKeyOutcome : Option AuthContext :=
    match cred with
    | none => none
    | some s =>
      if s.toList.isEmpty then none
      else if pyContains s ':' then
        match api_key_auth (pySplitOnce s).1 (pySplitOnce s).2 with
        | PyResult.ok (some k) => some { user := none, api_key := some k, auth_type := "api_key" }
        | PyResult.ok none => none
        | PyResult.exn => none
      else none
  match apiKeyOutcome with
  | some ctx => ctx
  | none => bearerAuth req.bearer_credentials verify_token get_user_by_username

/-- Whether the API-key phase of `get_auth_context` fails for credential
string `s` (assumed truthy): no `:` separator, key not
found / inactive / expired / hash mismatch (`ok none`), or a raised
exception. -/
def apiKeyPhaseFails (s : String)
    (api_key_auth : String → String → PyResult (Option APIKey)) : Bool :=
  if pyContains s ':' then
    match api_key_auth (pySplitOnce s).1 (pySplitOnce s).2 with
    | PyResult.ok (some _) => false
    | PyResult.ok none => true
    | PyResult.exn => true
  else true

/-- Whether the bearer-token phase of `get_auth_context` fails for token
`tok`: verification raises, the user is absent, the lookup raises, or the
user is inactive. -/
def bearerPhaseFails (tok : String)
    (verify_token : String → PyResult TokenData)
    (get_user_by_username : String → PyResult (Option User)) : Bool :=
  match verify_token tok with
  | PyResult.exn => true
  | PyResult.ok token_data =>
    match get_user_by_username token_data.username with
    | PyResult.exn => true
    | PyResult.ok none => true
    | PyResult.ok (some u) => !u.is_active

/-! ## Concrete fixtures used by witnesses and counterexamples -/

/-- An API key whose scope set is exactly `(read)`. -/
def readOnlyKey : APIKey :=
  { key_id := "sk_read", key_hash := "sha256:raw", name := "reader",
    scopes := [APIKeyScope.read], is_active := true, expires_at := none,
    rate_limit_requests := 500, rate_limit_window := 3600 }

/-- A concrete stand-in for `hashlib.sha256(...).hexdigest()`. -/
def cHash : String → String := fun s => "sha256:" ++ s

/-- An active, unexpired API key whose stored hash matches raw key `"raw"`
under `cHash`. -/
def goodKey : APIKey :=
  { key_id := "kid", key_hash := "sha256:raw", name := "good",
    scopes := [APIKeyScope.read], is_active := true, expires_at := none,
    rate_limit_requests := 500, rate_limit_window := 3600 }

/-- Token claims for a concrete user. -/
def tdAlice : TokenData := { username := "alice", user_id := none, role := none }

/-- A request carrying only a bearer token. -/
def reqBearerOnly : Request :=
  { header_x_api_key := none, query_api_key := none, bearer_credentials := some "tok" }

/-- A request carrying both an API-key credential and a bearer token. -/
def reqBoth : Request :=
  { header_x_api_key := some "kid:raw", query_api_key := none,
    bearer_credentials := some "tok" }

/-- An `authenticate_api_key` behaviour that accepts exactly `kid:raw`. -/
def akFnGood : String → String → PyResult (Option APIKey) :=
  fun a b => if a = "kid" && b = "raw" then PyResult.ok (some goodKey) else PyResult.ok none

/-- An `authenticate_api_key` behaviour that always raises (credential store
unreachable). -/
def akFnExn : String → String → PyResult (Option APIKey) := fun _ _ => PyResult.exn

/-- A `verify_token` behaviour that accepts every token with Alice's claims. -/
def vtAlice : String → PyResult TokenData := fun _ => PyResult.ok tdAlice

/-- A `get_user_by_username` behaviour that always raises (credential store
unreachable). -/
def guExn : String → PyResult (Option User) := fun _ => PyResult.exn

/-- A quota store holding two timestamps for identifier `"u"` (no endpoint). -/
def store1 : QuotaStore := storeSet emptyStore (getCacheKey "u" none) [0, 1]

/-- The headers of the 429 produced from `store1` at `now = 5`, limit 2,
window 60. -/
def c6Headers : RateLimitHeaders := { limit := 2, remaining := 0, reset := 60, retryAfter := 55 }

/-! ## Claim theorems -/

/-- C1: the claim says the scope check for an API-key identity succeeds iff
the key's scopes contain `admin` or the required scope, and that a key with
scope set `(read)` is denied `write`.  On the code this fails:
`AuthContext.has_scope` returns the un-awaited coroutine of the `async def
APIKeyService.has_scope`, which is truthy, so `require_scope` passes every
API-key context — in particular the `(read)`-scoped key passes a check for
`write`, although the awaited service-level predicate (the intended logic,
and `AuthContext.has_scope`'s own `-> bool` annotation) denies it. -/
theorem scope_check_unawaited_coroutine :
    (∀ (u : Option User) (t : String) (k : APIKey) (s : APIKeyScope),
        scopeCheckPasses { user := u, api_key := some k, auth_type := t } s = true)
    ∧ scopeCheckPasses { user := none, api_key := some readOnlyKey, auth_type := "api_key" }
        APIKeyScope.write = true
    ∧ APIKeyService.hasScopeAwaited readOnlyKey APIKeyScope.write = false := by
  refine ⟨fun u t k s => rfl, rfl, by decide⟩

/-- C10: a context with no user populated (an API-key identity) never
satisfies any role requirement, whatever the key's scopes — in particular even
a key carrying the `admin` scope. -/
theorem api_key_context_has_no_role :
    ∀ (k : APIKey) (t : String) (r : UserRole),
      AuthContext.has_role { user := none, api_key := some k, auth_type := t } r = false :=
  fun _ _ _ => rfl

/-- C2: the claim says that with limit 5 and window 60 s, five immediate
requests are all admitted and the sixth is rejected.  On the code this fails:
the fifth request is recorded by the service (remaining becomes 0) and then
rejected with 429 by the middleware, because `is_rate_limited` treats
`requests_remaining <= 0` as limited.  The run below shows requests at
t = 0,1,2,3,4,5 with the fifth and sixth rejected, and a request at t = 61
(past 60 s from the first request) admitted again — the window does slide,
but only four of the first five requests are admitted. -/
theorem quota_fifth_request_rejected :
    middlewareRejections 5 60 "u" none emptyStore [0, 1, 2, 3, 4, 5, 61]
      = [false, false, false, false, true, true, false] := by decide

/-- C3: the claim says occupancy equals the number of admitted requests capped
at the limit and that a rejected request never appends its timestamp.  At the
service level the second half is exact: `check_rate_limit` writes back exactly
when its admission guard holds (third conjunct).  But at the HTTP boundary the
claim fails: after five requests at t = 0..4 with limit 5 the middleware has
admitted only four requests (the fifth got a 429, first two conjuncts), yet
the retained occupancy is 5 — the 429-rejected fifth request did append its
timestamp. -/
theorem quota_occupancy_recorded_despite_429 :
    (((processTimes 5 60 "u" none emptyStore [0, 1, 2, 3, 4]).1
        (getCacheKey "u" none)).getD []).length = 5
    ∧ middlewareRejections 5 60 "u" none emptyStore [0, 1, 2, 3, 4]
        = [false, false, false, false, true]
    ∧ (∀ (store : QuotaStore) (now : Int) (identifier : String) (limit window : Nat)
        (endpoint : Option String),
        (check_rate_limit store now identifier limit window endpoint).2 =
          if serviceAdmits store now identifier limit window endpoint then
            storeSet store (getCacheKey identifier endpoint)
              ((((store (getCacheKey identifier endpoint)).getD []).filter
                  (fun t => now - (window : Int) < t)) ++ [now])
          else store) := by
  refine ⟨by decide, by decide, ?_⟩
  intro store now identifier limit window endpoint
  unfold check_rate_limit serviceAdmits
  dsimp only
  by_cases h : limit ≤ (((store (getCacheKey identifier endpoint)).getD []).filter
      (fun t => now - (window : Int) < t)).length
  · rw [if_pos h, if_neg]
    simp only [decide_eq_true_eq]
    omega
  · rw [if_neg h, if_pos]
    simp only [decide_eq_true_eq]
    omega

/-- C4 counterexample: the claim says an unreachable credential store makes
the pipeline deny with 503 and never admit the request as Anonymous.  On the
code, with a bearer token whose user lookup raises (and an API-key lookup that
would also raise), `get_auth_context` catches the exception and returns the
Anonymous context — the request proceeds as Anonymous and no 503 is raised. -/
theorem cred_store_failure_goes_anonymous :
    get_auth_context reqBearerOnly akFnExn vtAlice guExn = anonCtx := by rfl

/-- C4 amended: when the credential store is unreachable — every API-key
lookup and every user lookup raises — `get_auth_context` catches the
exceptions and returns the Anonymous identity for every request: the
authentication pipeline fails open to Anonymous (there is no 503 path). -/
theorem cred_store_failure_fails_open (req : Request)
    (ak : String → String → PyResult (Option APIKey))
    (vt : String → PyResult TokenData)
    (gu : String → PyResult (Option User))
    (hak : ∀ a b, ak a b = PyResult.exn)
    (hgu : ∀ u, gu u = PyResult.exn) :
    get_auth_context req ak vt gu = anonCtx := by
  have hb : bearerAuth req.bearer_credentials vt gu = anonCtx := by
    unfold bearerAuth
    cases req.bearer_credentials with
    | none => rfl
    | some tok =>
      dsimp only
      cases vt tok with
      | exn => rfl
      | ok td => dsimp only; rw [hgu td.username]
  unfold get_auth_context
  dsimp only
  cases hcred : pyOrStr req.header_x_api_key req.query_api_key with
  | none => exact hb
  | some s =>
    dsimp only
    by_cases he : s.toList.isEmpty = true
    · rw [if_pos he]; exact hb
    · rw [if_neg he]
      by_cases hc : pyContains s ':' = true
      · rw [if_pos hc, hak (pySplitOnce s).1 (pySplitOnce s).2]
        exact hb
      · rw [if_neg hc]; exact hb

/-- C4 amended, witness: the amended theorem applied to the concrete request
of the counterexample. -/
theorem cred_store_failure_fails_open_witness :
    get_auth_context reqBearerOnly akFnExn vtAlice guExn = anonCtx :=
  cred_store_failure_fails_open reqBearerOnly akFnExn vtAlice guExn
    (fun _ _ => rfl) (fun _ => rfl)

/-- C5 counterexample: the claim says a failure of the usage-recording side
effect never blocks or fails the authentication and `authenticate_api_key`
still returns the matched key.  On the code, for an active unexpired key whose
raw key matches the stored hash, a raising `update_last_used` makes
`authenticate_api_key` itself raise (the `await` is inline and uncaught), so
the matched key is not returned. -/
theorem usage_update_failure_blocks_auth :
    authenticate_api_key cHash 0 (some goodKey) PyResult.exn "raw" = PyResult.exn
    ∧ PyResult.exn ≠ PyResult.ok (some goodKey) := by
  exact ⟨rfl, by simp⟩

/-- C5 amended: `authenticate_api_key` awaits `update_last_used` inline with
no exception handling, so for an active, unexpired key whose raw key matches
the stored hash the result is the matched key exactly when the usage update
succeeds, and the update's exception propagates (authentication fails)
otherwise. -/
theorem usage_update_failure_propagates (hash : String → String) (now : Int)
    (k : APIKey) (raw : String) (upd : PyResult Unit)
    (hact : k.is_active = true)
    (hexp : (match k.expires_at with
             | some e => decide (e < now)
             | none => false) = false)
    (hhash : hash raw = k.key_hash) :
    authenticate_api_key hash now (some k) upd raw
      = (match upd with
         | PyResult.exn => PyResult.exn
         | PyResult.ok _ => PyResult.ok (some k)) := by
  unfold authenticate_api_key verify_api_key
  dsimp only
  rw [hact, hexp, hhash]
  simp

/-- C5 amended, witness: the amended theorem applied to the concrete key at a
succeeding usage update. -/
theorem usage_update_failure_propagates_witness :
    authenticate_api_key cHash 0 (some goodKey) (PyResult.ok ()) "raw"
      = PyResult.ok (some goodKey) :=
  usage_update_failure_propagates cHash 0 goodKey "raw" (PyResult.ok ()) rfl rfl rfl

/-- Helper for C7: when the bearer phase fails (verification raises, user
absent, lookup raises, or user inactive), the bearer half of
`get_auth_context` yields the anonymous context. -/
theorem bearerAuth_of_fails (tok : String)
    (vt : String → PyResult TokenData)
    (gu : String → PyResult (Option User))
    (h : bearerPhaseFails tok vt gu = true) :
    bearerAuth (some tok) vt gu = anonCtx := by
  unfold bearerAuth
  unfold bearerPhaseFails at h
  dsimp only
  cases hv : vt tok with
  | exn => rfl
  | ok td =>
    rw [hv] at h
    dsimp only at h ⊢
    cases hg : gu td.username with
    | exn => rfl
    | ok ou =>
      rw [hg] at h
      cases ou with
      | none => rfl
      | some u =>
        dsimp only
        simp only [Bool.not_eq_true'] at h
        rw [h]
        rfl

/-- C7: when both an API-key credential (header or query parameter, non-empty)
and a bearer token are present, API-key authentication is attempted first: on
success the context is APIKey-backed; on any API-key failure (no `:`
separator, key not found / inactive / expired / hash mismatch, or a raised
exception) the pipeline falls back to the bearer phase; if that also fails the
result is the Anonymous context, not an error. -/
theorem api_key_precedence (req : Request) (s tok : String)
    (ak : String → String → PyResult (Option APIKey))
    (vt : String → PyResult TokenData)
    (gu : String → PyResult (Option User))
    (hcred : pyOrStr req.header_x_api_key req.query_api_key = some s)
    (hne : s.toList.isEmpty = false)
    (htok : req.bearer_credentials = some tok) :
    (∀ k : APIKey, pyContains s ':' = true →
        ak (pySplitOnce s).1 (pySplitOnce s).2 = PyResult.ok (some k) →
        get_auth_context req ak vt gu
          = { user := none, api_key := some k, auth_type := "api_key" })
    ∧ (apiKeyPhaseFails s ak = true →
        get_auth_context req ak vt gu = bearerAuth req.bearer_credentials vt gu)
    ∧ (apiKeyPhaseFails s ak = true → bearerPhaseFails tok vt gu = true →
        get_auth_context req ak vt gu = anonCtx) := by
  have hne2 : ¬(s.toList.isEmpty = true) := by rw [hne]; simp
  have hbase : ∀ r : PyResult (Option APIKey),
      ak (pySplitOnce s).1 (pySplitOnce s).2 = r →
      get_auth_context req ak vt gu =
        (if pyContains s ':' = true then
          (match r with
           | PyResult.ok (some k) => { user := none, api_key := some k, auth_type := "api_key" }
           | PyResult.ok none => bearerAuth req.bearer_credentials vt gu
           | PyResult.exn => bearerAuth req.bearer_credentials vt gu)
         else bearerAuth req.bearer_credentials vt gu) := by
    intro r hr
    unfold get_auth_context
    dsimp only
    rw [hcred]
    dsimp only
    rw [if_neg hne2]
    by_cases hc : pyContains s ':' = true
    · rw [if_pos hc, if_pos hc, hr]
      cases r with
      | exn => rfl
      | ok ov =>
        cases ov with
        | none => rfl
        | some k => rfl
    · rw [if_neg hc, if_neg hc]
  have hfallback : apiKeyPhaseFails s ak = true →
      get_auth_context req ak vt gu = bearerAuth req.bearer_credentials vt gu := by
    intro hfail
    unfold apiKeyPhaseFails at hfail
    by_cases hc : pyContains s ':' = true
    · rw [if_pos hc] at hfail
      cases hak : ak (pySplitOnce s).1 (pySplitOnce s).2 with
      | exn => rw [hbase _ hak, if_pos hc]
      | ok ov =>
        rw [hak] at hfail
        cases ov with
        | none => rw [hbase _ hak, if_pos hc]
        | some k => exact absurd hfail (by simp)
    · rw [hbase _ rfl, if_neg hc]
  refine ⟨?_, hfallback, ?_⟩
  · intro k hc hak
    rw [hbase _ hak, if_pos hc]
  · intro hfail hbf
    rw [hfallback hfail, htok]
    exact bearerAuth_of_fails tok vt gu hbf

/-- C7 witness: the precedence theorem applied to a concrete request carrying
both credentials, where the API key authenticates: the identity is
APIKey-backed. -/
theorem api_key_precedence_witness :
    get_auth_context reqBoth akFnGood vtAlice guExn
      = { user := none, api_key := some goodKey, auth_type := "api_key" } :=
  (api_key_precedence reqBoth "kid:raw" "tok" akFnGood vtAlice guExn
    rfl rfl rfl).1 goodKey (by decide) (by decide)

/-- C8: the strength gate accepts a password iff its length is at least 8 and
at least 3 of the 4 character classes are present; user creation and password
change reject a failing password with the 400 weak-password error; "Abc12345"
is accepted and "abc" is rejected. -/
theorem password_gate :
    (∀ p : String, validate_password_strength p = true ↔
        (8 ≤ p.length ∧ 3 ≤ passwordClassCount p))
    ∧ (∀ p : String, validate_password_strength p = false →
        create_user false false p = CreateUserResult.badRequest weakPasswordDetail
          ∧ change_password true true p = Except.error (400, weakPasswordDetail))
    ∧ validate_password_strength "Abc12345" = true
    ∧ validate_password_strength "abc" = false := by
  refine ⟨?_, ?_, by decide, by decide⟩
  · intro p
    unfold validate_password_strength passwordClassCount
    by_cases h : p.length < 8
    · rw [if_pos h]
      simp only [Bool.false_eq_true, false_iff, not_and]
      intro h8
      omega
    · rw [if_neg h]
      dsimp only
      simp only [decide_eq_true_eq]
      constructor
      · intro h3
        exact ⟨by omega, h3⟩
      · intro hh
        exact hh.2
  · intro p hp
    constructor
    · unfold create_user
      rw [hp]
      simp
    · unfold change_password
      rw [hp]
      simp

/-- C8 witness: the gate theorem applied to the concrete rejected password
"abc". -/
theorem password_gate_witness :
    create_user false false "abc" = CreateUserResult.badRequest weakPasswordDetail
      ∧ change_password true true "abc" = Except.error (400, weakPasswordDetail) :=
  password_gate.2.1 "abc" (by decide)

/-- Helper: a left fold of `min` over a list stays among the seed and the
list elements. -/
theorem foldl_min_mem (ts : List Int) : ∀ t : Int, ts.foldl min t ∈ t :: ts := by
  induction ts with
  | nil => intro t; simp
  | cons a as ih =>
    intro t
    have h := ih (min t a)
    simp only [List.foldl_cons]
    rcases List.mem_cons.mp h with h1 | h1
    · rcases min_choice t a with hm | hm
      · have h2 : List.foldl min (min t a) as = t := h1.trans hm
        simp [h2]
      · have h2 : List.foldl min (min t a) as = a := h1.trans hm
        simp [h2]
    · simp [h1]

/-- Helper: Python's `min(l) if l else d` is the default or a member of the
list. -/
theorem listMin_cases (l : List Int) (d : Int) : listMin l d = d ∨ listMin l d ∈ l := by
  cases l with
  | nil => left; rfl
  | cons t ts =>
    right
    exact foldl_min_mem ts t

/-- Helper: shape facts about the `RateLimitInfo` returned by
`check_rate_limit`: the echoed limit, non-negative remaining count, and a
reset time never before `now`. -/
theorem check_rate_limit_info_facts (store : QuotaStore) (now : Int) (identifier : String)
    (limit window : Nat) (endpoint : Option String) :
    (check_rate_limit store now identifier limit window endpoint).1.limit = limit
    ∧ 0 ≤ (check_rate_limit store now identifier limit window endpoint).1.requests_remaining
    ∧ now ≤ (check_rate_limit store now identifier limit window endpoint).1.reset_time := by
  unfold check_rate_limit
  dsimp only
  set recent := (((store (getCacheKey identifier endpoint)).getD []).filter
      (fun t => now - (window : Int) < t)) with hrecent
  by_cases h : limit ≤ recent.length
  · rw [if_pos h]
    refine ⟨rfl, le_refl 0, ?_⟩
    rcases listMin_cases recent now with hm | hm
    · dsimp only
      rw [hm]
      omega
    · have hp := List.of_mem_filter hm
      simp only [decide_eq_true_eq] at hp
      dsimp only
      omega
  · rw [if_neg h]
    refine ⟨rfl, ?_, ?_⟩
    · dsimp only
      simp only [List.length_append, List.length_cons, List.length_nil]
      omega
    · dsimp only
      omega

/-- C6: whenever the rate-limit middleware raises 429, the attached headers
carry the limit, a remaining count of exactly 0, the reset time of the
underlying service response, and a Retry-After of `reset_time - now` seconds,
which is never negative — i.e. it equals its value clamped to be at least 0. -/
theorem quota_rejection_headers (store : QuotaStore) (now : Int) (identifier : String)
    (limit window : Nat) (endpoint : Option String) (h : RateLimitHeaders)
    (hrej : (middleware_check_rate_limit store now identifier limit window endpoint).rejected
        = some h) :
    h.limit = limit
    ∧ h.remaining = 0
    ∧ h.reset = (check_rate_limit store now identifier limit window endpoint).1.reset_time
    ∧ h.retryAfter = h.reset - now
    ∧ 0 ≤ h.retryAfter
    ∧ h.retryAfter = max 0 (h.reset - now) := by
  obtain ⟨hl, hrem, hres⟩ :=
    check_rate_limit_info_facts store now identifier limit window endpoint
  unfold middleware_check_rate_limit at hrej
  dsimp only at hrej
  by_cases hlim :
      is_rate_limited (check_rate_limit store now identifier limit window endpoint).1 = true
  · rw [if_pos hlim] at hrej
    simp only [Option.some.injEq] at hrej
    unfold is_rate_limited at hlim
    simp only [decide_eq_true_eq] at hlim
    have hr0 : (check_rate_limit store now identifier limit window endpoint).1.requests_remaining
        = 0 := le_antisymm hlim hrem
    subst hrej
    have h0 : 0 ≤ (check_rate_limit store now identifier limit window
        endpoint).1.reset_time - now := by omega
    exact ⟨hl, hr0, rfl, rfl, h0, (max_eq_right h0).symm⟩
  · rw [if_neg hlim] at hrej
    cases hrej

/-- C6 witness: the header theorem applied to a concrete rejection — two
retained timestamps, limit 2, at `now = 5` with window 60. -/
theorem quota_rejection_headers_witness :
    c6Headers.limit = 2
    ∧ c6Headers.remaining = 0
    ∧ c6Headers.reset = (check_rate_limit store1 5 "u" 2 60 none).1.reset_time
    ∧ c6Headers.retryAfter = c6Headers.reset - 5
    ∧ 0 ≤ c6Headers.retryAfter
    ∧ c6Headers.retryAfter = max 0 (c6Headers.reset - 5) :=
  quota_rejection_headers store1 5 "u" 2 60 none c6Headers (by decide)

/-- Helper: appending on the left of a string is cancellable. -/
theorem string_append_cancel_left {p a b : String} (h : p ++ a = p ++ b) : a = b := by
  have hd := congrArg String.data h
  rw [String.data_append, String.data_append] at hd
  have h2 : a.data = b.data := List.append_cancel_left hd
  cases a
  cases b
  exact congrArg String.mk h2

/-- C9: quota state is partitioned per (identifier, endpoint): for one
identity, two different endpoint strings produce different cache keys, and a
`check_rate_limit` call for the first endpoint leaves the stored timestamp
sequence of the second endpoint untouched — each endpoint occupies its own
sliding window and the limit applies per endpoint. -/
theorem rate_limit_per_endpoint (identifier e1 e2 : String) (hne : e1 ≠ e2)
    (store : QuotaStore) (now : Int) (limit window : Nat) :
    getCacheKey identifier (some e1) ≠ getCacheKey identifier (some e2)
    ∧ (check_rate_limit store now identifier limit window (some e1)).2
        (getCacheKey identifier (some e2))
      = store (getCacheKey identifier (some e2)) := by
  have hkey : getCacheKey identifier (some e1) ≠ getCacheKey identifier (some e2) := by
    intro hcontra
    exact hne (string_append_cancel_left hcontra)
  refine ⟨hkey, ?_⟩
  unfold check_rate_limit
  dsimp only
  by_cases h : limit ≤ ((((store (getCacheKey identifier (some e1))).getD []).filter
      (fun t => now - (window : Int) < t))).length
  · rw [if_pos h]
  · rw [if_neg h]
    dsimp only
    unfold storeSet
    rw [if_neg (fun hc => hkey hc.symm)]

/-- C9 witness: the partition theorem applied to one identity and the two
concrete endpoints `GET /a` and `GET /b`. -/
theorem rate_limit_per_endpoint_witness :
    getCacheKey "u" (some "GET /a") ≠ getCacheKey "u" (some "GET /b")
    ∧ (check_rate_limit emptyStore 0 "u" 5 60 (some "GET /a")).2
        (getCacheKey "u" (some "GET /b"))
      = emptyStore (getCacheKey "u" (some "GET /b")) :=
  rate_limit_per_endpoint "u" "GET /a" "GET /b" (by decide) emptyStore 0 5 60

end StockAuth
